import Mathlib

/-!
Verification of the log-export and file-handler components of the
`test_project` Python library (modules `test_project.utils.otel_exporter`
and `test_project.utils.file_handler`), via a shallow embedding in Lean.

Python strings are modelled as lists of Unicode code points (`Str`),
byte strings as lists of naturals below 256 (`Bytes`), dictionaries as
ordered association lists, and fallible operations as `Except`-valued
functions whose error type enumerates the Python exception classes the
source raises or catches.
-/

namespace TestProject

/-- A Python `str`: a finite sequence of Unicode code points. -/
abbrev Str := List Nat

/-- A Python `bytes` value: a finite sequence of byte values. -/
abbrev Bytes := List Nat

/-- Convert a Lean string literal into the code-point model of a Python string. -/
def strOf (s : String) : Str := s.data.map (fun c => c.toNat)

/-- ASCII lowercasing of one code point, the fragment of `str.lower`
relevant to the log-level strings handled by the source. -/
def asciiLower (n : Nat) : Nat := if 65 ≤ n ∧ n ≤ 90 then n + 32 else n

/-- ASCII uppercasing of one code point, the fragment of `str.upper`
relevant to the log-level strings handled by the source. -/
def asciiUpper (n : Nat) : Nat := if 97 ≤ n ∧ n ≤ 122 then n - 32 else n

/-- `str.lower` on the ASCII fragment. -/
def strLower (s : Str) : Str := s.map asciiLower

/-- `str.upper` on the ASCII fragment. -/
def strUpper (s : Str) : Str := s.map asciiUpper

/-- A Unicode scalar value: what a code point of a well-formed Python
`str` may be when UTF-8 encoding is requested (Python rejects lone
surrogates when encoding). -/
def ValidScalar (n : Nat) : Prop := n < 0x110000 ∧ (n < 0xD800 ∨ 0xE000 ≤ n)

instance (n : Nat) : Decidable (ValidScalar n) := by
  unfold ValidScalar; infer_instance

/-- UTF-8 encoding of a single Unicode scalar value, written with
division and remainder so that the byte decomposition is arithmetic. -/
def utf8EncodeChar (c : Nat) : List Nat :=
  if c < 0x80 then [c]
  else if c < 0x800 then [0xC0 + c / 64, 0x80 + c % 64]
  else if c < 0x10000 then [0xE0 + c / 4096, 0x80 + c / 64 % 64, 0x80 + c % 64]
  else [0xF0 + c / 262144, 0x80 + c / 4096 % 64, 0x80 + c / 64 % 64, 0x80 + c % 64]

/-- Whether a byte is a UTF-8 continuation byte. -/
def isCont (b : Nat) : Bool := 0x80 ≤ b ∧ b < 0xC0

/-- Decode a two-byte UTF-8 sequence whose leading byte is `b0`. -/
def utf8Cont1 (b0 : Nat) : Bytes → Option (Nat × Bytes)
  | b1 :: rest =>
    if isCont b1 then some ((b0 - 0xC0) * 64 + (b1 - 0x80), rest) else none
  | _ => none

/-- Decode a three-byte UTF-8 sequence whose leading byte is `b0`,
rejecting overlong forms and surrogates. -/
def utf8Cont2 (b0 : Nat) : Bytes → Option (Nat × Bytes)
  | b1 :: b2 :: rest =>
    if isCont b1 ∧ isCont b2 then
      let c := (b0 - 0xE0) * 4096 + (b1 - 0x80) * 64 + (b2 - 0x80)
      if 0x800 ≤ c ∧ (c < 0xD800 ∨ 0xE000 ≤ c) then some (c, rest) else none
    else none
  | _ => none

/-- Decode a four-byte UTF-8 sequence whose leading byte is `b0`,
rejecting overlong forms and values beyond the Unicode range. -/
def utf8Cont3 (b0 : Nat) : Bytes → Option (Nat × Bytes)
  | b1 :: b2 :: b3 :: rest =>
    if isCont b1 ∧ isCont b2 ∧ isCont b3 then
      let c := (b0 - 0xF0) * 262144 + (b1 - 0x80) * 4096 + (b2 - 0x80) * 64 + (b3 - 0x80)
      if 0x10000 ≤ c ∧ c < 0x110000 then some (c, rest) else none
    else none
  | _ => none

/-- Decode one scalar value from the front of a byte sequence, returning
it with the remaining bytes; strict about truncated sequences, bad
continuation bytes, overlong forms, surrogates and out-of-range values,
as the Python `utf-8` codec is. -/
def utf8DecodeOne : Bytes → Option (Nat × Bytes)
  | [] => none
  | b0 :: rest =>
    if b0 < 0x80 then some (b0, rest)
    else if b0 < 0xC2 then none
    else if b0 < 0xE0 then utf8Cont1 b0 rest
    else if b0 < 0xF0 then utf8Cont2 b0 rest
    else if b0 < 0xF5 then utf8Cont3 b0 rest
    else none

/-- Fuel-indexed UTF-8 decoding loop; the fuel bounds the number of
decoded scalars and is instantiated with the byte count. -/
def utf8DecodeAux : Nat → Bytes → Option Str
  | _, [] => some []
  | 0, _ :: _ => none
  | fuel + 1, b0 :: rest =>
    match utf8DecodeOne (b0 :: rest) with
    | none => none
    | some (c, rest2) => (utf8DecodeAux fuel rest2).map (fun t => c :: t)

/-- Strict UTF-8 decoding of a byte sequence into code points. -/
def utf8Decode (bs : Bytes) : Option Str := utf8DecodeAux bs.length bs

/-- A character encoding as Python exposes it through `codecs`: a partial
encoder from text to bytes and a partial decoder back, `none` standing
for `UnicodeEncodeError` / `UnicodeDecodeError`. -/
structure Encoding where
  encode : Str → Option Bytes
  decode : Bytes → Option Str

/-- An encoding is lossless when decoding inverts encoding on every text
it can encode; the codecs the source names (`utf-8`, `cp932`) are. -/
def Encoding.Lossless (enc : Encoding) : Prop :=
  ∀ t b, enc.encode t = some b → enc.decode b = some t

/-- The `utf-8` codec: encoding succeeds exactly when every code point
is a Unicode scalar value (Python rejects lone surrogates). -/
def Encoding.utf8 : Encoding where
  encode := fun s =>
    if s.all (fun c => decide (ValidScalar c)) then some (s.flatMap utf8EncodeChar) else none
  decode := utf8Decode

/-- A file path, already split into its components, as `pathlib.Path`
presents it. The last component is the file name; the strict prefixes
are the ancestor directories. -/
abbrev FsPath := List String

/-- A filesystem entry: raw bytes plus whether the current process may
read it (the source distinguishes `PermissionError` from
`FileNotFoundError`). -/
structure FsFile where
  bytes : Bytes
  readable : Bool

/-- The filesystem state visible to the file handler: a partial map from
paths to files and the set of existing directories. -/
structure FileSystem where
  files : FsPath → Option FsFile
  dirs : FsPath → Bool

/-- The Python exception classes raised or caught by the source modules. -/
inductive PyErr where
  | fileNotFoundError
  | permissionError
  | unicodeDecodeError
  | unicodeEncodeError
  | jsonDecodeError
  | typeError
  | yamlError
  | connectionError
  | sdkError
  deriving DecidableEq, Repr

/-- `Path.mkdir(parents=True, exist_ok=True)` on the parent of `path`:
every ancestor directory of `path` comes to exist, existing ones are
left alone. -/
def mkdirParents (fs : FileSystem) (path : FsPath) : FileSystem :=
  { fs with dirs := fun d => fs.dirs d || d.isPrefixOf path.dropLast }

/-- `Path.write_text` at the byte level: fails with a not-found error
when the parent directory does not exist (as `open` does), otherwise
replaces the file content. -/
def writeTextRaw (fs : FileSystem) (path : FsPath) (bs : Bytes) : Except PyErr FileSystem :=
  if fs.dirs path.dropLast then
    .ok { fs with files := fun p => if p = path then some ⟨bs, true⟩ else fs.files p }
  else
    .error .fileNotFoundError

namespace FileHandler

/-- `read_file` from `file_handler.py`: `Path.read_text` with an explicit
encoding; the handlers re-raise `FileNotFoundError`, `PermissionError`
and `UnicodeDecodeError` unchanged after logging. -/
def read_file (fs : FileSystem) (path : FsPath) (enc : Encoding) : Except PyErr Str :=
  match fs.files path with
  | none => .error .fileNotFoundError
  | some f =>
    if f.readable then
      match enc.decode f.bytes with
      | some t => .ok t
      | none => .error .unicodeDecodeError
    else
      .error .permissionError

/-- `write_file` from `file_handler.py`: create missing parent
directories, then `Path.write_text` with the requested encoding; the
handlers re-raise `PermissionError` and `UnicodeEncodeError` unchanged
after logging. -/
def write_file (fs : FileSystem) (path : FsPath) (content : Str) (enc : Encoding) :
    Except PyErr FileSystem :=
  let fs1 := mkdirParents fs path
  match enc.encode content with
  | none => .error .unicodeEncodeError
  | some bs => writeTextRaw fs1 path bs

/-- A text serializer as the `json` / `yaml` libraries expose it:
`dumps` fails on values the format cannot represent, `loads` fails on
malformed text. -/
structure Serializer (α : Type) where
  dumps : α → Option Str
  loads : Str → Option α

/-- `read_json` from `file_handler.py`: `read_file` with `utf-8`, then
`json.loads`; a parse failure is re-raised as `json.JSONDecodeError`
and errors from `read_file` propagate unchanged. -/
def read_json {α : Type} (ser : Serializer α) (fs : FileSystem) (path : FsPath) :
    Except PyErr α := do
  let content ← read_file fs path Encoding.utf8
  match ser.loads content with
  | some v => .ok v
  | none => .error .jsonDecodeError

/-- `write_json` from `file_handler.py`: `json.dumps` (a `TypeError` on
a non-serializable value is re-raised), then `write_file` with `utf-8`. -/
def write_json {α : Type} (ser : Serializer α) (fs : FileSystem) (path : FsPath) (data : α) :
    Except PyErr FileSystem :=
  match ser.dumps data with
  | none => .error .typeError
  | some s => write_file fs path s Encoding.utf8

/-- `read_yaml` from `file_handler.py`: `read_file` with `utf-8`, then
`yaml.safe_load`; a parse failure is re-raised as `yaml.YAMLError`. -/
def read_yaml {α : Type} (ser : Serializer α) (fs : FileSystem) (path : FsPath) :
    Except PyErr α := do
  let content ← read_file fs path Encoding.utf8
  match ser.loads content with
  | some v => .ok v
  | none => .error .yamlError

/-- `write_yaml` from `file_handler.py`: `yaml.dump` (a `YAMLError` on a
value the format cannot represent is re-raised), then `write_file` with
`utf-8`. -/
def write_yaml {α : Type} (ser : Serializer α) (fs : FileSystem) (path : FsPath) (data : α) :
    Except PyErr FileSystem :=
  match ser.dumps data with
  | none => .error .yamlError
  | some s => write_file fs path s Encoding.utf8

end FileHandler

/-- A Python value as it occurs in a structlog event dictionary; `obj`
stands for any object the `json` module cannot serialize. -/
inductive PyVal where
  | str (s : Str)
  | int (n : Int)
  | bool (b : Bool)
  | pyNone
  | obj (id : Nat)
  deriving DecidableEq, Repr

/-- A structlog `EventDict`: an insertion-ordered mapping from field
names to values. -/
abbrev EventDict := List (Str × PyVal)

/-- `event_dict.get(key, default)`. -/
def dictGet (ev : EventDict) (k : Str) (dflt : PyVal) : PyVal :=
  match ev.find? (fun kv => kv.1 == k) with
  | some kv => kv.2
  | none => dflt

/-- `value.upper()`: defined on strings; on any other value the
attribute lookup raises, which the caller's `except` clause absorbs. -/
def pyUpper : PyVal → Option Str
  | .str s => some (strUpper s)
  | _ => none

/-- JSON rendering of one event value; `none` is the `TypeError` that
`json.dump` raises on a non-serializable object. -/
def renderJsonVal : PyVal → Option Str
  | .str s => some ([34] ++ s.flatMap (fun c => if c = 34 ∨ c = 92 then [92, c] else [c]) ++ [34])
  | .int n => some (strOf (toString n))
  | .bool b => some (strOf (if b then "true" else "false"))
  | .pyNone => some (strOf "null")
  | .obj _ => none

/-- JSON rendering of one key/value entry of an event. -/
def renderJsonPair (kv : Str × PyVal) : Option Str :=
  (renderJsonVal kv.2).map
    (fun rv => [34] ++ kv.1.flatMap (fun c => if c = 34 ∨ c = 92 then [92, c] else [c]) ++ [34]
      ++ strOf ": " ++ rv)

/-- JSON rendering of every entry of an event, failing as soon as one
value is not serializable. -/
def renderJsonPairs : EventDict → Option (List Str)
  | [] => some []
  | kv :: t =>
    match renderJsonPair kv, renderJsonPairs t with
    | some s, some rest => some (s :: rest)
    | _, _ => none

/-- `json.dumps(event_dict, ensure_ascii=False)`: fails with a
`TypeError` exactly when some value is not JSON-serializable. -/
def jsonDumpsEvent (ev : EventDict) : Option Str :=
  (renderJsonPairs ev).map
    (fun pieces => [123] ++ (List.intersperse (strOf ", ") pieces).flatten ++ [125])

/-- The outcome of one call of a client's leveled logging method, as
forwarded by `OTLPLogExporter.export`: the selected method name, the
positional message argument and the attributes passed under `extra`. -/
structure ClientCall where
  method : Str
  message : PyVal
  attributes : List (Str × PyVal)
  deriving DecidableEq, Repr

/-- The OpenTelemetry logger handle obtained from the provider: the set
of leveled method names it exposes, and the timeout in seconds that the
underlying SDK exporter was constructed with. -/
structure OTelClient where
  methods : List Str
  sdkTimeout : Int
  deriving DecidableEq, Repr

/-- What `sock.connect_ex` did during the constructor's connectivity
probe: returned a code, or raised one of the caught exception classes. -/
inductive ProbeOutcome where
  | connectEx (code : Int)
  | timeoutErr
  | gaiErr
  | osErr
  deriving DecidableEq, Repr

/-- The external conditions the `OTLPLogExporter` constructor meets: the
lazy OpenTelemetry import, the connectivity probe, and whether the SDK
constructors succeed, yielding a client with the given method names. -/
structure OTelEnv where
  otelAvailable : Bool
  probe : ProbeOutcome
  sdkOk : Bool
  methods : List Str

/-- The probe outcomes the source treats as a failed connectivity check:
a non-zero `connect_ex` code, or a `TimeoutError` / `socket.gaierror` /
`OSError` raised by the probe. -/
def probeFailed : ProbeOutcome → Bool
  | .connectEx code => code != 0
  | _ => true

/-- Line 189 of `otel_exporter.py`: `timeout=timeout // 1000`, the
millisecond-to-second conversion handed to the SDK exporter; Python's
`//` on integers is floor division. -/
def sdkTimeoutSeconds (timeoutMs : Int) : Int := Int.fdiv timeoutMs 1000

/-- The state of a constructed `OTLPLogExporter` instance. -/
structure OTLPLogExporter where
  endpoint : Str
  service_name : Str
  timeout : Int
  otelAvailable : Bool
  otelLogger : Option OTelClient
  deriving Repr

namespace OTLPLogExporter

/-- The `try` block of the constructor: probe the endpoint with
`connect_ex` (a non-zero code or a caught socket exception becomes a
`ConnectionError`), then build the SDK exporter, provider, processor
and logger. -/
def initTry (timeoutMs : Int) (env : OTelEnv) : Except PyErr OTelClient :=
  match env.probe with
  | .connectEx code =>
    if code ≠ 0 then .error .connectionError
    else if env.sdkOk then .ok ⟨env.methods, sdkTimeoutSeconds timeoutMs⟩
    else .error .sdkError
  | _ => .error .connectionError

/-- `OTLPLogExporter.__init__`: when OpenTelemetry is unavailable, or
when the `try` block fails, the instance is created disabled
(`_otel_logger = None`); the surrounding `except Exception` means the
constructor itself never raises. -/
def init (endpoint service_name : Str) (timeoutMs : Int) (env : OTelEnv) :
    Except PyErr OTLPLogExporter :=
  if !env.otelAvailable then
    .ok ⟨endpoint, service_name, timeoutMs, false, none⟩
  else
    match initTry timeoutMs env with
    | .ok c => .ok ⟨endpoint, service_name, timeoutMs, true, some c⟩
    | .error _ => .ok ⟨endpoint, service_name, timeoutMs, true, none⟩

/-- The keys `OTLPLogExporter.export` strips before forwarding
attributes. -/
def reservedKeys : List Str :=
  [strOf "event", strOf "level", strOf "_record", strOf "_from_structlog"]

/-- `OTLPLogExporter.export`: the list of leveled calls made on the
client (empty when disabled, or when the `try` body raises and is
caught). The level field is uppercased, the message is the `event`
field, the reserved keys are stripped from the attributes, and the
method is looked up by the lowercased level with `info` as fallback;
`self._otel_logger.info` in the `getattr` default is an attribute
access of its own, so a client without `info` raises before the call
and the `except` clause absorbs it. -/
def exportEvent (st : OTLPLogExporter) (ev : EventDict) : List ClientCall :=
  if !st.otelAvailable then []
  else
    match st.otelLogger with
    | none => []
    | some client =>
      match pyUpper (dictGet ev (strOf "level") (.str (strOf "info"))) with
      | none => []
      | some levelU =>
        let message := dictGet ev (strOf "event") (.str [])
        let attributes := ev.filter (fun kv => !(reservedKeys.contains kv.1))
        if client.methods.contains (strOf "info") then
          let m := strLower levelU
          let method := if client.methods.contains m then m else strOf "info"
          [⟨method, message, attributes⟩]
        else []

end OTLPLogExporter

/-- The filesystem conditions one `FileLogExporter.export` call meets:
whether opening the path for append raises an `OSError`, and whether
the write itself does. -/
structure FileIOEnv where
  openOk : Bool
  writeOk : Bool

namespace FileLogExporter

/-- `FileLogExporter.export`: append one JSON line. The `except OSError`
clause absorbs I/O failures (returning without a written line); the
`TypeError` that `json.dump` raises on a non-serializable value is not
an `OSError` and escapes. On success the written line is returned. -/
def exportEvent (env : FileIOEnv) (ev : EventDict) : Except PyErr (Option Str) :=
  if !env.openOk then .ok none
  else
    match jsonDumpsEvent ev with
    | none => .error .typeError
    | some line =>
      if !env.writeOk then .ok none
      else .ok (some line)

end FileLogExporter

/-- Modelled from the spec: the export-mode selector of the settings
module (`test_project/utils/settings.py` is not among the provided
sources); the spec gives the modes disabled/file/otlp/both. -/
inductive OTelExportMode where
  | disabled
  | file
  | otlp
  | both
  deriving DecidableEq, Repr

/-- Modelled from the spec: the flat settings record resolved from the
environment (`test_project/utils/settings.py` is not among the provided
sources); the fields are the ones `LogExporterFactory.create` and its
tests read. -/
structure LoggingSettings where
  otel_logs_export_mode : OTelExportMode
  log_file_path : Option Str
  otel_endpoint : Str
  otel_service_name : Str
  otel_export_timeout : Int

/-- Python truthiness of `settings.log_file_path`: `None` and the empty
string are falsy. -/
def truthyPath : Option Str → Bool
  | none => false
  | some s => !s.isEmpty

/-- An exporter as the factory returns it. -/
inductive CreatedExporter where
  | fileExporter (file_path : Str)
  | otlpExporter (st : OTLPLogExporter)

/-- Whether a created exporter is the file variant. -/
def CreatedExporter.isFile : CreatedExporter → Bool
  | .fileExporter _ => true
  | .otlpExporter _ => false

namespace LogExporterFactory

/-- `LogExporterFactory.create`: append a `FileLogExporter` when the
mode asks for files and the path is truthy; append an
`OTLPLogExporter` when the mode asks for OTLP, dropping it only if its
construction raises (which `OTLPLogExporter.__init__` never does). -/
def create (settings : LoggingSettings) (env : OTelEnv) : List CreatedExporter :=
  let exporters : List CreatedExporter := []
  let exporters :=
    if (settings.otel_logs_export_mode = .file ∨ settings.otel_logs_export_mode = .both)
        ∧ truthyPath settings.log_file_path then
      exporters ++ [.fileExporter (settings.log_file_path.getD [])]
    else exporters
  if settings.otel_logs_export_mode = .otlp ∨ settings.otel_logs_export_mode = .both then
    match OTLPLogExporter.init settings.otel_endpoint settings.otel_service_name
        settings.otel_export_timeout env with
    | .ok st => exporters ++ [.otlpExporter st]
    | .error _ => exporters
  else exporters

end LogExporterFactory

/-- An export callable as `StructlogOTelProcessor` sees it: it either
returns or raises some exception. -/
abbrev PyExporter := EventDict → Except PyErr Unit

/-- The processor holding the ordered exporter list. -/
structure StructlogOTelProcessor where
  exporters : List PyExporter

/-- The `for` loop of `StructlogOTelProcessor.__call__`: each exporter's
`export` is attempted inside its own `try`; an exception is logged and
the loop continues with the next exporter. The returned list records
each attempted call's outcome in order. -/
def runExporters : List PyExporter → EventDict → List (Except PyErr Unit)
  | [], _ => []
  | ex :: rest, ev =>
    match ex ev with
    | .ok u => .ok u :: runExporters rest ev
    | .error e => .error e :: runExporters rest ev

/-- `StructlogOTelProcessor.__call__`: run every exporter on the event,
then return the event dictionary itself. -/
def StructlogOTelProcessor.call (p : StructlogOTelProcessor) (ev : EventDict) :
    List (Except PyErr Unit) × EventDict :=
  (runExporters p.exporters ev, ev)

/-- Whether the `json` module can serialize a value. -/
def jsonSerializable : PyVal → Bool
  | .obj _ => false
  | _ => true

/-- A filesystem with no files and no directories. -/
def emptyFs : FileSystem := ⟨fun _ => none, fun _ => false⟩

/-- A small concrete filesystem used to evaluate the error paths of the
file handler: an unreadable file, a file of invalid UTF-8 bytes, and a
one-byte text file. -/
def sampleFs : FileSystem :=
  { files := fun p =>
      if p = ["secret.txt"] then some ⟨[104], false⟩
      else if p = ["bad.txt"] then some ⟨[255], true⟩
      else if p = ["data.json"] then some ⟨[120], true⟩
      else none,
    dirs := fun d => d.isEmpty }

/-- A concrete serializer instance for evaluation: serializes single
values through `renderJsonVal` and parses only the text `null`. -/
def pyValSerializer : FileHandler.Serializer PyVal :=
  ⟨renderJsonVal, fun s => if s = strOf "null" then some PyVal.pyNone else none⟩

/-- A concrete round-tripping serializer instance for evaluation. -/
def boolSerializer : FileHandler.Serializer Bool :=
  ⟨fun b => some (strOf (if b then "true" else "false")),
   fun s => if s = strOf "true" then some true
     else if s = strOf "false" then some false else none⟩

/-- A concrete enabled exporter state whose client offers `info` and
`warning`, for evaluation. -/
def sampleOtlpState : OTLPLogExporter :=
  ⟨strOf "http://localhost:4317", strOf "test-service", 30000, true,
    some ⟨[strOf "info", strOf "warning"], 30⟩⟩

/-- A concrete event with a message, an uppercase level and one extra
field, for evaluation. -/
def sampleEvent : EventDict :=
  [(strOf "event", PyVal.str (strOf "Test OTLP message")),
   (strOf "level", PyVal.str (strOf "WARNING")),
   (strOf "user_id", PyVal.str (strOf "user123"))]

theorem asciiLower_asciiUpper (n : Nat) : asciiLower (asciiUpper n) = asciiLower n := by
  unfold asciiUpper
  by_cases h1 : 97 ≤ n ∧ n ≤ 122
  · rw [if_pos h1]
    unfold asciiLower
    have ha : 65 ≤ n - 32 ∧ n - 32 ≤ 90 := by omega
    have hb : ¬ (65 ≤ n ∧ n ≤ 90) := by omega
    rw [if_pos ha, if_neg hb]
    omega
  · rw [if_neg h1]

theorem strLower_strUpper (s : Str) : strLower (strUpper s) = strLower s := by
  unfold strLower strUpper
  rw [List.map_map]
  exact List.map_congr_left (fun n _ => asciiLower_asciiUpper n)

theorem utf8Cont1_length (b0 : Nat) (r : Bytes) (c : Nat) (rest : Bytes)
    (h : utf8Cont1 b0 r = some (c, rest)) : rest.length + 1 ≤ r.length := by
  match r with
  | [] => simp [utf8Cont1] at h
  | b1 :: r2 =>
    simp only [utf8Cont1] at h
    split at h
    · simp only [Option.some.injEq, Prod.mk.injEq] at h
      simp [← h.2]
    · exact absurd h (by simp)

theorem utf8Cont2_length (b0 : Nat) (r : Bytes) (c : Nat) (rest : Bytes)
    (h : utf8Cont2 b0 r = some (c, rest)) : rest.length + 2 ≤ r.length := by
  match r with
  | [] => simp [utf8Cont2] at h
  | [b1] => simp [utf8Cont2] at h
  | b1 :: b2 :: r2 =>
    simp only [utf8Cont2] at h
    split at h
    · split at h
      · simp only [Option.some.injEq, Prod.mk.injEq] at h
        simp [← h.2]
      · exact absurd h (by simp)
    · exact absurd h (by simp)

theorem utf8Cont3_length (b0 : Nat) (r : Bytes) (c : Nat) (rest : Bytes)
    (h : utf8Cont3 b0 r = some (c, rest)) : rest.length + 3 ≤ r.length := by
  match r with
  | [] => simp [utf8Cont3] at h
  | [b1] => simp [utf8Cont3] at h
  | [b1, b2] => simp [utf8Cont3] at h
  | b1 :: b2 :: b3 :: r2 =>
    simp only [utf8Cont3] at h
    split at h
    · split at h
      · simp only [Option.some.injEq, Prod.mk.injEq] at h
        simp [← h.2]
      · exact absurd h (by simp)
    · exact absurd h (by simp)

theorem utf8DecodeOne_length (bs : Bytes) (c : Nat) (rest : Bytes)
    (h : utf8DecodeOne bs = some (c, rest)) : rest.length < bs.length := by
  match bs with
  | [] => simp [utf8DecodeOne] at h
  | b0 :: r =>
    simp only [utf8DecodeOne] at h
    split at h
    · simp only [Option.some.injEq, Prod.mk.injEq] at h
      simp [← h.2]
    · split at h
      · exact absurd h (by simp)
      · split at h
        · have := utf8Cont1_length b0 r c rest h
          simp only [List.length_cons]; omega
        · split at h
          · have := utf8Cont2_length b0 r c rest h
            simp only [List.length_cons]; omega
          · split at h
            · have := utf8Cont3_length b0 r c rest h
              simp only [List.length_cons]; omega
            · exact absurd h (by simp)

theorem utf8DecodeAux_fuel (f1 : Nat) : ∀ (f2 : Nat) (bs : Bytes),
    bs.length ≤ f1 → bs.length ≤ f2 → utf8DecodeAux f1 bs = utf8DecodeAux f2 bs := by
  induction f1 with
  | zero =>
    intro f2 bs h1 _
    match bs with
    | [] => cases f2 <;> rfl
    | _ :: _ => simp at h1
  | succ g1 ih =>
    intro f2 bs h1 h2
    match bs with
    | [] => cases f2 <;> rfl
    | b0 :: r =>
      match f2 with
      | 0 => simp at h2
      | g2 + 1 =>
        simp only [utf8DecodeAux]
        cases hone : utf8DecodeOne (b0 :: r) with
        | none => rfl
        | some p =>
          obtain ⟨c, rest2⟩ := p
          have hlen := utf8DecodeOne_length _ _ _ hone
          simp only [List.length_cons] at hlen h1 h2
          show (utf8DecodeAux g1 rest2).map (fun t => c :: t) =
            (utf8DecodeAux g2 rest2).map (fun t => c :: t)
          rw [ih g2 rest2 (by omega) (by omega)]

/-- One-step unfolding of the decoder through a successful `utf8DecodeOne`. -/
theorem utf8Decode_step (bs : Bytes) (c : Nat) (rest : Bytes)
    (h : utf8DecodeOne bs = some (c, rest)) :
    utf8Decode bs = (utf8Decode rest).map (fun t => c :: t) := by
  match bs with
  | [] => simp [utf8DecodeOne] at h
  | b0 :: r =>
    unfold utf8Decode
    simp only [List.length_cons, utf8DecodeAux, h]
    have hlen := utf8DecodeOne_length _ _ _ h
    simp only [List.length_cons] at hlen
    rw [utf8DecodeAux_fuel r.length rest.length rest (by omega) (le_refl _)]

theorem utf8DecodeOne_encodeChar (c : Nat) (h : ValidScalar c) (bs : Bytes) :
    utf8DecodeOne (utf8EncodeChar c ++ bs) = some (c, bs) := by
  obtain ⟨h1, h2⟩ := h
  unfold utf8EncodeChar
  by_cases hc1 : c < 0x80
  · simp only [if_pos hc1, List.cons_append, List.nil_append]
    unfold utf8DecodeOne
    simp [hc1]
  · by_cases hc2 : c < 0x800
    · simp only [if_neg hc1, if_pos hc2, List.cons_append, List.nil_append]
      unfold utf8DecodeOne
      have hb0 : ¬ (0xC0 + c / 64 < 0x80) := by omega
      have hb0a : ¬ (0xC0 + c / 64 < 0xC2) := by omega
      have hb0b : 0xC0 + c / 64 < 0xE0 := by omega
      have hb1 : isCont (0x80 + c % 64) = true := by
        unfold isCont; simp only [decide_eq_true_eq]; omega
      simp only [if_neg hb0, if_neg hb0a, if_pos hb0b, utf8Cont1, hb1, if_pos rfl]
      have hval : (0xC0 + c / 64 - 0xC0) * 64 + (0x80 + c % 64 - 0x80) = c := by omega
      rw [hval]
      simp
    · by_cases hc3 : c < 0x10000
      · simp only [if_neg hc1, if_neg hc2, if_pos hc3, List.cons_append, List.nil_append]
        unfold utf8DecodeOne
        have hb0 : ¬ (0xE0 + c / 4096 < 0x80) := by omega
        have hb0a : ¬ (0xE0 + c / 4096 < 0xC2) := by omega
        have hb0b : ¬ (0xE0 + c / 4096 < 0xE0) := by omega
        have hb0c : 0xE0 + c / 4096 < 0xF0 := by omega
        have hb1 : isCont (0x80 + c / 64 % 64) = true := by
          unfold isCont; simp only [decide_eq_true_eq]; omega
        have hb2 : isCont (0x80 + c % 64) = true := by
          unfold isCont; simp only [decide_eq_true_eq]; omega
        simp only [if_neg hb0, if_neg hb0a, if_neg hb0b, if_pos hb0c, utf8Cont2,
          hb1, hb2, and_self, if_pos rfl]
        have hval : (0xE0 + c / 4096 - 0xE0) * 4096 + (0x80 + c / 64 % 64 - 0x80) * 64 +
            (0x80 + c % 64 - 0x80) = c := by omega
        rw [hval]
        have hrange : 0x800 ≤ c ∧ (c < 0xD800 ∨ 0xE000 ≤ c) := by omega
        simp [hrange]
      · simp only [if_neg hc1, if_neg hc2, if_neg hc3, List.cons_append, List.nil_append]
        unfold utf8DecodeOne
        have hb0 : ¬ (0xF0 + c / 262144 < 0x80) := by omega
        have hb0a : ¬ (0xF0 + c / 262144 < 0xC2) := by omega
        have hb0b : ¬ (0xF0 + c / 262144 < 0xE0) := by omega
        have hb0c : ¬ (0xF0 + c / 262144 < 0xF0) := by omega
        have hb0d : 0xF0 + c / 262144 < 0xF5 := by omega
        have hb1 : isCont (0x80 + c / 4096 % 64) = true := by
          unfold isCont; simp only [decide_eq_true_eq]; omega
        have hb2 : isCont (0x80 + c / 64 % 64) = true := by
          unfold isCont; simp only [decide_eq_true_eq]; omega
        have hb3 : isCont (0x80 + c % 64) = true := by
          unfold isCont; simp only [decide_eq_true_eq]; omega
        simp only [if_neg hb0, if_neg hb0a, if_neg hb0b, if_neg hb0c, if_pos hb0d,
          utf8Cont3, hb1, hb2, hb3, and_self, if_pos rfl]
        have hval : (0xF0 + c / 262144 - 0xF0) * 262144 + (0x80 + c / 4096 % 64 - 0x80) * 4096 +
            (0x80 + c / 64 % 64 - 0x80) * 64 + (0x80 + c % 64 - 0x80) = c := by omega
        rw [hval]
        have hrange : 0x10000 ≤ c ∧ c < 0x110000 := by omega
        simp [hrange]

/-- UTF-8 decoding inverts UTF-8 encoding on sequences of valid scalars. -/
theorem utf8Decode_encode (s : Str) (h : ∀ c ∈ s, ValidScalar c) :
    utf8Decode (s.flatMap utf8EncodeChar) = some s := by
  induction s with
  | nil => rfl
  | cons c t ih =>
    rw [List.flatMap_cons,
      utf8Decode_step _ c (t.flatMap utf8EncodeChar)
        (utf8DecodeOne_encodeChar c (h c (by simp)) _),
      ih (fun x hx => h x (by simp [hx]))]
    rfl

theorem Encoding.utf8_lossless : Encoding.utf8.Lossless := by
  intro t b h
  simp only [Encoding.utf8] at h
  split at h
  · rename_i hall
    simp only [Option.some.injEq] at h
    subst h
    exact utf8Decode_encode t (by
      intro c hc
      have := List.all_eq_true.mp hall c hc
      exact of_decide_eq_true this)
  · exact absurd h (by simp)

theorem isPrefixOf_self (l : List String) : l.isPrefixOf l = true := by
  induction l with
  | nil => rfl
  | cons a t ih => simp [List.isPrefixOf, ih]

theorem runExporters_eq_map (es : List PyExporter) (ev : EventDict) :
    runExporters es ev = es.map (fun ex => ex ev) := by
  induction es with
  | nil => rfl
  | cons ex rest ih =>
    simp only [runExporters, List.map_cons]
    cases h : ex ev with
    | ok u => rw [ih]
    | error e => rw [ih]

theorem otlpInit_ok (endpoint svc : Str) (t : Int) (env : OTelEnv) :
    ∃ st, OTLPLogExporter.init endpoint svc t env = .ok st := by
  unfold OTLPLogExporter.init
  split
  · exact ⟨_, rfl⟩
  · split <;> exact ⟨_, rfl⟩

theorem write_file_ok (fs : FileSystem) (path : FsPath) (content : Str) (enc : Encoding)
    (bs : Bytes) (he : enc.encode content = some bs) :
    ∃ fs2, FileHandler.write_file fs path content enc = .ok fs2 ∧
      fs2.files path = some ⟨bs, true⟩ ∧
      (∀ d, d.isPrefixOf path.dropLast = true → fs2.dirs d = true) := by
  have hdir : (mkdirParents fs path).dirs path.dropLast = true := by
    simp [mkdirParents, isPrefixOf_self]
  have hw : FileHandler.write_file fs path content enc =
      .ok { mkdirParents fs path with
            files := fun p =>
              if p = path then some ⟨bs, true⟩ else (mkdirParents fs path).files p } := by
    simp only [FileHandler.write_file, he]
    unfold writeTextRaw
    rw [if_pos hdir]
  refine ⟨_, hw, ?_, ?_⟩
  · simp
  · intro d hd
    simp [mkdirParents, hd]

theorem write_file_reads_back (fs : FileSystem) (path : FsPath) (enc : Encoding)
    (text : Str) (bytes : Bytes) (hl : enc.Lossless) (he : enc.encode text = some bytes) :
    ∃ fs2, FileHandler.write_file fs path text enc = .ok fs2 ∧
      FileHandler.read_file fs2 path enc = .ok text := by
  obtain ⟨fs2, hw, hf, _⟩ := write_file_ok fs path text enc bytes he
  refine ⟨fs2, hw, ?_⟩
  unfold FileHandler.read_file
  rw [hf]
  simp [hl text bytes he]

theorem renderJsonVal_some (v : PyVal) (h : jsonSerializable v = true) :
    ∃ s, renderJsonVal v = some s := by
  cases v with
  | obj i => simp [jsonSerializable] at h
  | str s => exact ⟨_, rfl⟩
  | int n => exact ⟨_, rfl⟩
  | bool b => exact ⟨_, rfl⟩
  | pyNone => exact ⟨_, rfl⟩

theorem renderJsonPairs_some : ∀ (ev : EventDict),
    (∀ kv ∈ ev, jsonSerializable kv.2 = true) →
    ∃ ps, renderJsonPairs ev = some ps
  | [], _ => ⟨[], rfl⟩
  | kv :: t, h => by
    obtain ⟨s1, hs1⟩ := renderJsonVal_some kv.2 (h kv (by simp))
    obtain ⟨ps, hps⟩ := renderJsonPairs_some t (fun x hx => h x (by simp [hx]))
    have hpair : ∃ s, renderJsonPair kv = some s := by
      unfold renderJsonPair
      rw [hs1]
      exact ⟨_, rfl⟩
    obtain ⟨sp, hsp⟩ := hpair
    exact ⟨sp :: ps, by unfold renderJsonPairs; rw [hsp, hps]⟩

theorem jsonDumpsEvent_some (ev : EventDict) (h : ∀ kv ∈ ev, jsonSerializable kv.2 = true) :
    ∃ s, jsonDumpsEvent ev = some s := by
  obtain ⟨ps, hps⟩ := renderJsonPairs_some ev h
  exact ⟨_, by unfold jsonDumpsEvent; rw [hps]; rfl⟩

theorem utf8_encode_of_valid (s : Str) (h : ∀ c ∈ s, ValidScalar c) :
    Encoding.utf8.encode s = some (s.flatMap utf8EncodeChar) := by
  have hall : s.all (fun c => decide (ValidScalar c)) = true :=
    List.all_eq_true.mpr (fun c hc => decide_eq_true (h c hc))
  show (if s.all (fun c => decide (ValidScalar c)) then some (s.flatMap utf8EncodeChar)
    else none) = some (s.flatMap utf8EncodeChar)
  rw [if_pos hall]

/-- C1: `StructlogOTelProcessor.__call__` calls `export` exactly once on
every exporter in list order — the per-exporter `try`/`except` isolates
failures, so any subset of the exporters may raise without stopping the
iteration or reaching the caller — and the call returns the event
dictionary unchanged. -/
theorem structlog_processor_exports_all_and_returns_event
    (p : StructlogOTelProcessor) (ev : EventDict) :
    (p.call ev).1 = p.exporters.map (fun ex => ex ev) ∧ (p.call ev).2 = ev :=
  ⟨runExporters_eq_map p.exporters ev, rfl⟩

/-- C2: constructing `OTLPLogExporter` against an endpoint whose
connectivity probe fails (non-zero `connect_ex` code, timeout, DNS
failure or OS error) does not raise; the instance is created disabled
(`_otel_logger = None`) and every subsequent `export` call returns
without invoking the telemetry client. -/
theorem otlp_unreachable_construction_is_noop
    (endpoint svc : Str) (t : Int) (env : OTelEnv)
    (h : probeFailed env.probe = true) :
    ∃ st, OTLPLogExporter.init endpoint svc t env = .ok st ∧
      st.otelLogger = none ∧ ∀ ev, st.exportEvent ev = [] := by
  have htry : ∃ e, OTLPLogExporter.initTry t env = .error e := by
    unfold OTLPLogExporter.initTry
    cases henv : env.probe with
    | connectEx code =>
      rw [henv] at h
      simp only [probeFailed] at h
      have hz : code ≠ 0 := by simpa using h
      show ∃ e, (if code ≠ 0 then (.error .connectionError : Except PyErr OTelClient)
        else if env.sdkOk then .ok ⟨env.methods, sdkTimeoutSeconds t⟩
        else .error .sdkError) = .error e
      rw [if_pos hz]
      exact ⟨_, rfl⟩
    | timeoutErr => exact ⟨_, rfl⟩
    | gaiErr => exact ⟨_, rfl⟩
    | osErr => exact ⟨_, rfl⟩
  obtain ⟨e, htry⟩ := htry
  unfold OTLPLogExporter.init
  cases havail : env.otelAvailable
  · exact ⟨⟨endpoint, svc, t, false, none⟩, rfl, rfl, fun ev => rfl⟩
  · refine ⟨⟨endpoint, svc, t, true, none⟩, ?_, rfl, fun ev => rfl⟩
    rw [htry]
    rfl

/-- C2 witness: a concrete refused connection, evaluated end to end. -/
theorem otlp_unreachable_construction_is_noop_witness :
    probeFailed (ProbeOutcome.connectEx 111) = true ∧
    ∃ st, OTLPLogExporter.init (strOf "http://otel:4317") (strOf "test-svc") 30000
        ⟨true, ProbeOutcome.connectEx 111, true, [strOf "info"]⟩ = .ok st ∧
      st.otelLogger = none ∧ ∀ ev, st.exportEvent ev = [] :=
  ⟨by decide, otlp_unreachable_construction_is_noop _ _ _ _ (by decide)⟩

/-- C3 counterexample: with mode `both` and no configured file path the
factory returns one exporter, not two. -/
theorem factory_both_without_path_counterexample :
    (LogExporterFactory.create
        ⟨OTelExportMode.both, none, strOf "http://otel:4317", strOf "svc", 30000⟩
        ⟨true, ProbeOutcome.connectEx 111, true, [strOf "info"]⟩).length = 1 ∧
    (LogExporterFactory.create
        ⟨OTelExportMode.both, none, strOf "http://otel:4317", strOf "svc", 30000⟩
        ⟨true, ProbeOutcome.connectEx 111, true, [strOf "info"]⟩).length ≠ 2 := by
  exact ⟨rfl, by decide⟩

/-- C3 (amended): `LogExporterFactory.create` returns the list implied
by the export mode: `file` with a truthy path gives exactly one file
exporter and `file` without one the empty list; `both` with a truthy
path gives the file exporter then the remote exporter — even when the
remote endpoint is unreachable — and `both` without one only the remote
exporter; `disabled` gives the empty list. -/
theorem factory_exporters_by_mode (s : LoggingSettings) (env : OTelEnv) :
    (s.otel_logs_export_mode = .file → truthyPath s.log_file_path = true →
      ∃ fp, LogExporterFactory.create s env = [.fileExporter fp]) ∧
    (s.otel_logs_export_mode = .file → truthyPath s.log_file_path = false →
      LogExporterFactory.create s env = []) ∧
    (s.otel_logs_export_mode = .both → truthyPath s.log_file_path = true →
      ∃ fp st, LogExporterFactory.create s env = [.fileExporter fp, .otlpExporter st]) ∧
    (s.otel_logs_export_mode = .both → truthyPath s.log_file_path = false →
      ∃ st, LogExporterFactory.create s env = [.otlpExporter st]) ∧
    (s.otel_logs_export_mode = .disabled → LogExporterFactory.create s env = []) := by
  obtain ⟨st0, hst0⟩ :=
    otlpInit_ok s.otel_endpoint s.otel_service_name s.otel_export_timeout env
  refine ⟨fun hmode htr => ?_, fun hmode htr => ?_, fun hmode htr => ?_,
    fun hmode htr => ?_, fun hmode => ?_⟩
  · exact ⟨s.log_file_path.getD [], by
      unfold LogExporterFactory.create
      simp [hmode, htr]⟩
  · unfold LogExporterFactory.create
    simp [hmode, htr]
  · exact ⟨s.log_file_path.getD [], st0, by
      unfold LogExporterFactory.create
      simp [hmode, htr, hst0]⟩
  · exact ⟨st0, by
      unfold LogExporterFactory.create
      simp [hmode, htr, hst0]⟩
  · unfold LogExporterFactory.create
    simp [hmode]

/-- C3 witness: both-mode with a configured path and an unreachable
endpoint still yields one exporter of each kind. -/
theorem factory_exporters_by_mode_witness :
    ∃ fp st, LogExporterFactory.create
        ⟨OTelExportMode.both, some (strOf "/tmp/test.log"), strOf "http://otel:4317",
          strOf "svc", 30000⟩
        ⟨true, ProbeOutcome.connectEx 111, true, [strOf "info"]⟩
      = [.fileExporter fp, .otlpExporter st] :=
  (factory_exporters_by_mode _ _).2.2.1 rfl (by decide)

/-- C4 counterexample: an event holding a non-JSON-serializable value
makes `FileLogExporter.export` raise a `TypeError` past its boundary,
because only `OSError` is caught. -/
theorem file_export_nonserializable_counterexample :
    FileLogExporter.exportEvent ⟨true, true⟩ [(strOf "event", PyVal.obj 0)]
      = .error .typeError := rfl

/-- C4 (amended): for every event dictionary whose values are
JSON-serializable, `FileLogExporter.export` never raises past its own
boundary — an OS error while opening or writing the file is caught and
logged internally and the call returns normally; only the `TypeError`
of a non-serializable value escapes. -/
theorem file_export_serializable_never_raises (env : FileIOEnv) (ev : EventDict)
    (h : ∀ kv ∈ ev, jsonSerializable kv.2 = true) :
    ∃ r, FileLogExporter.exportEvent env ev = .ok r := by
  obtain ⟨s, hs⟩ := jsonDumpsEvent_some ev h
  unfold FileLogExporter.exportEvent
  cases hopen : env.openOk
  · exact ⟨none, rfl⟩
  · rw [hs]
    cases hw : env.writeOk
    · exact ⟨none, rfl⟩
    · exact ⟨some s, rfl⟩

/-- C4 witness: a serializable event on a path whose open fails is
swallowed; the call returns normally. -/
theorem file_export_serializable_never_raises_witness :
    (∀ kv ∈ ([(strOf "event", PyVal.str (strOf "hello"))] : EventDict),
      jsonSerializable kv.2 = true) ∧
    ∃ r, FileLogExporter.exportEvent ⟨false, true⟩
      [(strOf "event", PyVal.str (strOf "hello"))] = .ok r :=
  ⟨by decide, file_export_serializable_never_raises _ _ (by decide)⟩

/-- C5: for an enabled `OTLPLogExporter` whose client offers `info`,
`export` makes exactly one leveled call: the method is selected by the
lowercased level field — case-insensitively, since the code uppercases
and then lowercases — with `info` as the default when the client has no
matching method; the message argument is the `event` field; and the
forwarded attributes are exactly the event entries whose keys are not
`event`, `level`, `_record` or `_from_structlog`. -/
theorem otlp_export_level_selection_and_attributes
    (st : OTLPLogExporter) (client : OTelClient) (ev : EventDict) (l : Str)
    (havail : st.otelAvailable = true)
    (hclient : st.otelLogger = some client)
    (hinfo : client.methods.contains (strOf "info") = true)
    (hlevel : dictGet ev (strOf "level") (.str (strOf "info")) = .str l) :
    st.exportEvent ev =
      [⟨(if client.methods.contains (strLower l) then strLower l else strOf "info"),
        dictGet ev (strOf "event") (.str []),
        ev.filter (fun kv => !(OTLPLogExporter.reservedKeys.contains kv.1))⟩] ∧
    ∀ kv, kv ∈ ev.filter (fun kv => !(OTLPLogExporter.reservedKeys.contains kv.1)) ↔
      (kv ∈ ev ∧ kv.1 ≠ strOf "event" ∧ kv.1 ≠ strOf "level" ∧
        kv.1 ≠ strOf "_record" ∧ kv.1 ≠ strOf "_from_structlog") := by
  constructor
  · unfold OTLPLogExporter.exportEvent
    rw [havail, hclient, hlevel]
    simp only [pyUpper, Bool.not_true, Bool.false_eq_true, if_false]
    rw [strLower_strUpper]
    have hmem : strOf "info" ∈ client.methods := by simpa using hinfo
    simp [hinfo, hmem]
  · intro kv
    simp [List.mem_filter, OTLPLogExporter.reservedKeys, and_assoc]

/-- C5 witness: the sample event selects the `warning` method, forwards
the message positionally and keeps only the non-reserved field. -/
theorem otlp_export_level_selection_witness :
    sampleOtlpState.exportEvent sampleEvent =
      [⟨strOf "warning", PyVal.str (strOf "Test OTLP message"),
        [(strOf "user_id", PyVal.str (strOf "user123"))]⟩] := by
  have h := (otlp_export_level_selection_and_attributes sampleOtlpState
    ⟨[strOf "info", strOf "warning"], 30⟩ sampleEvent (strOf "WARNING")
    rfl rfl (by decide) rfl).1
  rw [h]
  decide

/-- C6: reading a file back immediately after writing it returns the
original text, for every encoding that decodes what it encodes (as the
supported codecs do) and every text the encoding accepts. -/
theorem read_after_write_roundtrip (fs : FileSystem) (path : FsPath) (enc : Encoding)
    (text : Str) (bytes : Bytes) (hl : enc.Lossless) (he : enc.encode text = some bytes) :
    ∃ fs2, FileHandler.write_file fs path text enc = .ok fs2 ∧
      FileHandler.read_file fs2 path enc = .ok text :=
  write_file_reads_back fs path enc text bytes hl he

/-- C6 witness: a UTF-8 round trip of a text with multibyte characters
through a fresh filesystem. -/
theorem read_after_write_roundtrip_witness :
    ∃ fs2, FileHandler.write_file emptyFs ["tmp", "file.txt"]
        (strOf "héllo wörld") Encoding.utf8 = .ok fs2 ∧
      FileHandler.read_file fs2 ["tmp", "file.txt"] Encoding.utf8 =
        .ok (strOf "héllo wörld") :=
  read_after_write_roundtrip emptyFs ["tmp", "file.txt"] Encoding.utf8
    (strOf "héllo wörld") ((strOf "héllo wörld").flatMap utf8EncodeChar)
    Encoding.utf8_lossless (by rfl)

/-- C7: `read_json` after `write_json` returns the value, and likewise
for YAML, for every value the serializer round-trips whose rendered
text is valid Unicode. -/
theorem json_yaml_write_read_roundtrip {α : Type}
    (jser yser : FileHandler.Serializer α) (fs : FileSystem) (path : FsPath)
    (v : α) (sj sy : Str)
    (hjd : jser.dumps v = some sj) (hjl : jser.loads sj = some v)
    (hjv : ∀ c ∈ sj, ValidScalar c)
    (hyd : yser.dumps v = some sy) (hyl : yser.loads sy = some v)
    (hyv : ∀ c ∈ sy, ValidScalar c) :
    (∃ fs2, FileHandler.write_json jser fs path v = .ok fs2 ∧
      FileHandler.read_json jser fs2 path = .ok v) ∧
    (∃ fs2, FileHandler.write_yaml yser fs path v = .ok fs2 ∧
      FileHandler.read_yaml yser fs2 path = .ok v) := by
  constructor
  · obtain ⟨fs2, hw, hr⟩ := write_file_reads_back fs path Encoding.utf8 sj _
      Encoding.utf8_lossless (utf8_encode_of_valid sj hjv)
    refine ⟨fs2, ?_, ?_⟩
    · unfold FileHandler.write_json
      rw [hjd]
      exact hw
    · unfold FileHandler.read_json
      rw [hr]
      show (match jser.loads sj with
        | some w => (Except.ok w : Except PyErr α)
        | none => Except.error PyErr.jsonDecodeError) = Except.ok v
      rw [hjl]
  · obtain ⟨fs2, hw, hr⟩ := write_file_reads_back fs path Encoding.utf8 sy _
      Encoding.utf8_lossless (utf8_encode_of_valid sy hyv)
    refine ⟨fs2, ?_, ?_⟩
    · unfold FileHandler.write_yaml
      rw [hyd]
      exact hw
    · unfold FileHandler.read_yaml
      rw [hr]
      show (match yser.loads sy with
        | some w => (Except.ok w : Except PyErr α)
        | none => Except.error PyErr.yamlError) = Except.ok v
      rw [hyl]

/-- C7 witness: a round-tripping serializer instance on the value
`true`, through both the JSON and the YAML paths. -/
theorem json_yaml_write_read_roundtrip_witness :
    (∃ fs2, FileHandler.write_json boolSerializer emptyFs ["data.json"] true = .ok fs2 ∧
      FileHandler.read_json boolSerializer fs2 ["data.json"] = .ok true) ∧
    (∃ fs2, FileHandler.write_yaml boolSerializer emptyFs ["data.json"] true = .ok fs2 ∧
      FileHandler.read_yaml boolSerializer fs2 ["data.json"] = .ok true) :=
  json_yaml_write_read_roundtrip boolSerializer boolSerializer emptyFs ["data.json"]
    true (strOf "true") (strOf "true") rfl (by rfl) (by decide) rfl (by rfl) (by decide)

/-- C8: the file handler propagates every error unchanged — a missing
path raises a not-found error, denied access a permission error,
incompatible bytes a decode error, malformed JSON a parse error and a
non-serializable value a type error; the handlers only log and
re-raise, so the caller sees exactly the original error. -/
theorem file_handler_errors_propagate {α : Type} (ser : FileHandler.Serializer α)
    (fs : FileSystem) (path : FsPath) (enc : Encoding) (f : FsFile) (v : α) :
    (fs.files path = none →
      FileHandler.read_file fs path enc = .error .fileNotFoundError) ∧
    (fs.files path = some f → f.readable = false →
      FileHandler.read_file fs path enc = .error .permissionError) ∧
    (fs.files path = some f → f.readable = true → enc.decode f.bytes = none →
      FileHandler.read_file fs path enc = .error .unicodeDecodeError) ∧
    (∀ t, FileHandler.read_file fs path Encoding.utf8 = .ok t → ser.loads t = none →
      FileHandler.read_json ser fs path = .error .jsonDecodeError) ∧
    (ser.dumps v = none →
      FileHandler.write_json ser fs path v = .error .typeError) := by
  refine ⟨?_, ?_, ?_, ?_, ?_⟩
  · intro h
    simp [FileHandler.read_file, h]
  · intro h hr
    simp [FileHandler.read_file, h, hr]
  · intro h hr hd
    simp [FileHandler.read_file, h, hr, hd]
  · intro t h1 h2
    unfold FileHandler.read_json
    rw [h1]
    show (match ser.loads t with
      | some w => (Except.ok w : Except PyErr α)
      | none => Except.error PyErr.jsonDecodeError) = Except.error PyErr.jsonDecodeError
    rw [h2]
  · intro hd
    simp [FileHandler.write_json, hd]

/-- C8 witness: each error case of the sample filesystem, evaluated. -/
theorem file_handler_errors_propagate_witness :
    FileHandler.read_file sampleFs ["missing.txt"] Encoding.utf8 =
      .error .fileNotFoundError ∧
    FileHandler.read_file sampleFs ["secret.txt"] Encoding.utf8 =
      .error .permissionError ∧
    FileHandler.read_file sampleFs ["bad.txt"] Encoding.utf8 =
      .error .unicodeDecodeError ∧
    FileHandler.read_json pyValSerializer sampleFs ["data.json"] =
      .error .jsonDecodeError ∧
    FileHandler.write_json pyValSerializer sampleFs ["out.json"] (PyVal.obj 0) =
      .error .typeError :=
  ⟨(file_handler_errors_propagate pyValSerializer sampleFs ["missing.txt"]
      Encoding.utf8 ⟨[], true⟩ PyVal.pyNone).1 rfl,
   (file_handler_errors_propagate pyValSerializer sampleFs ["secret.txt"]
      Encoding.utf8 ⟨[104], false⟩ PyVal.pyNone).2.1 rfl rfl,
   (file_handler_errors_propagate pyValSerializer sampleFs ["bad.txt"]
      Encoding.utf8 ⟨[255], true⟩ PyVal.pyNone).2.2.1 rfl rfl rfl,
   (file_handler_errors_propagate pyValSerializer sampleFs ["data.json"]
      Encoding.utf8 ⟨[], true⟩ PyVal.pyNone).2.2.2.1 [120] rfl rfl,
   (file_handler_errors_propagate pyValSerializer sampleFs ["out.json"]
      Encoding.utf8 ⟨[], true⟩ (PyVal.obj 0)).2.2.2.2 rfl⟩

/-- C9: when the parent directories of the target path do not exist,
`write_file` creates all missing intermediate directories before
writing and the write succeeds; `write_json` and `write_yaml`, which
delegate to it, do the same. -/
theorem write_file_creates_parent_directories (fs : FileSystem) (path : FsPath)
    (content : Str) (enc : Encoding) (bs : Bytes)
    (_hmissing : ∀ d, d.isPrefixOf path.dropLast = true → fs.dirs d = false)
    (he : enc.encode content = some bs) :
    (∃ fs2, FileHandler.write_file fs path content enc = .ok fs2 ∧
      fs2.files path = some ⟨bs, true⟩ ∧
      (∀ d, d.isPrefixOf path.dropLast = true → fs2.dirs d = true)) ∧
    (∀ (α : Type) (ser : FileHandler.Serializer α) (v : α) (s : Str),
      ser.dumps v = some s → (∀ c ∈ s, ValidScalar c) →
      ∃ fs2, FileHandler.write_json ser fs path v = .ok fs2 ∧
        (∀ d, d.isPrefixOf path.dropLast = true → fs2.dirs d = true)) ∧
    (∀ (α : Type) (ser : FileHandler.Serializer α) (v : α) (s : Str),
      ser.dumps v = some s → (∀ c ∈ s, ValidScalar c) →
      ∃ fs2, FileHandler.write_yaml ser fs path v = .ok fs2 ∧
        (∀ d, d.isPrefixOf path.dropLast = true → fs2.dirs d = true)) := by
  refine ⟨write_file_ok fs path content enc bs he, ?_, ?_⟩
  · intro α ser v s hd hv
    obtain ⟨fs2, hw, _, hdirs⟩ :=
      write_file_ok fs path s Encoding.utf8 _ (utf8_encode_of_valid s hv)
    refine ⟨fs2, ?_, hdirs⟩
    unfold FileHandler.write_json
    rw [hd]
    exact hw
  · intro α ser v s hd hv
    obtain ⟨fs2, hw, _, hdirs⟩ :=
      write_file_ok fs path s Encoding.utf8 _ (utf8_encode_of_valid s hv)
    refine ⟨fs2, ?_, hdirs⟩
    unfold FileHandler.write_yaml
    rw [hd]
    exact hw

/-- C9 witness: writing under two missing directories of an empty
filesystem succeeds and both directories exist afterwards. -/
theorem write_file_creates_parent_directories_witness :
    ∃ fs2, FileHandler.write_file emptyFs ["a", "b", "f.txt"]
        (strOf "hi") Encoding.utf8 = .ok fs2 ∧
      fs2.files ["a", "b", "f.txt"] = some ⟨[104, 105], true⟩ ∧
      (∀ d, d.isPrefixOf (["a", "b", "f.txt"] : FsPath).dropLast = true →
        fs2.dirs d = true) :=
  (write_file_creates_parent_directories emptyFs ["a", "b", "f.txt"]
    (strOf "hi") Encoding.utf8 [104, 105] (fun d _ => rfl) (by rfl)).1

/-- C10 counterexample: a negative millisecond timeout is strictly below
1000 but floor division gives -1, not 0 seconds. -/
theorem sdk_timeout_negative_counterexample :
    (-500 : Int) < 1000 ∧ sdkTimeoutSeconds (-500) ≠ 0 := by decide

/-- C10 (amended): the millisecond timeout is converted for the SDK
exporter by integer floor division by 1000, so every nonnegative value
strictly below 1000 ms becomes 0 seconds (and 1999 ms becomes 1 s); a
successful construction records that converted timeout in the client. -/
theorem sdk_timeout_floor_division (t : Int) (h0 : 0 ≤ t) (h1 : t < 1000) :
    sdkTimeoutSeconds t = 0 ∧ sdkTimeoutSeconds 1999 = 1 ∧
    (∀ (endpoint svc : Str) (env : OTelEnv), env.otelAvailable = true →
      env.probe = ProbeOutcome.connectEx 0 → env.sdkOk = true →
      ∃ st client, OTLPLogExporter.init endpoint svc t env = .ok st ∧
        st.otelLogger = some client ∧ client.sdkTimeout = 0) := by
  have hz : sdkTimeoutSeconds t = 0 := by
    unfold sdkTimeoutSeconds
    rw [Int.fdiv_eq_ediv t (by norm_num : (0 : Int) ≤ 1000)]
    omega
  refine ⟨hz, by decide, ?_⟩
  intro endpoint svc env ha hp hs
  refine ⟨⟨endpoint, svc, t, true, some ⟨env.methods, sdkTimeoutSeconds t⟩⟩,
    ⟨env.methods, sdkTimeoutSeconds t⟩, ?_, rfl, hz⟩
  unfold OTLPLogExporter.init OTLPLogExporter.initTry
  simp [ha, hp, hs]

/-- C10 witness: the amended bound evaluated at 500 ms. -/
theorem sdk_timeout_floor_division_witness :
    sdkTimeoutSeconds 500 = 0 ∧ sdkTimeoutSeconds 1999 = 1 :=
  ⟨(sdk_timeout_floor_division 500 (by decide) (by decide)).1,
   (sdk_timeout_floor_division 500 (by decide) (by decide)).2.1⟩

end TestProject
